import Mathlib

/-!
Shallow embedding of the example MCP server
(`src/examples/express-AppPlatform-mcp-server-streamable/src/index.ts`):
an Express application composing the Descope OAuth authorization gateway
with the stateless MCP streamable-HTTP transport.

JavaScript values that matter for the claims (JSON bodies, env vars,
truthiness) are modelled explicitly.  Code of the external packages
(`@descope/mcp-express`, `@modelcontextprotocol/sdk`, the JS runtime)
is not under `src/`; such definitions carry a doc comment starting
`Modelled from the spec:` and follow the spec's words for them.
-/

/-- A JSON value, as produced and consumed by the server's handlers. -/
inductive J where
  | null : J
  | bool : Bool → J
  | num : Int → J
  | str : String → J
  | arr : List J → J
  | obj : List (String × J) → J
  deriving Repr, BEq

/-- JavaScript truthiness of a JSON value (`!x` / `x || y` semantics):
`null`, `false`, `0` and the empty string are falsy. -/
def jsTruthy : J → Bool
  | J.null => false
  | J.bool b => b
  | J.num n => n != 0
  | J.str s => s != ""
  | J.arr _ => true
  | J.obj _ => true

/-- JavaScript truthiness of a possibly-undefined value (`undefined` is falsy). -/
def jsTruthyOpt : Option J → Bool
  | none => false
  | some v => jsTruthy v

/-- `o?.f` on a JSON value: field access returning `undefined` (`none`) when
the value is not an object or lacks the field. -/
def getField (v : J) (f : String) : Option J :=
  match v with
  | J.obj kvs => (kvs.find? (fun kv => kv.1 == f)).map (fun kv => kv.2)
  | _ => none

/-- `x || null` on a possibly-undefined value, as in `req.body?.id || null`
(index.ts line 313): a truthy value passes through, anything falsy
(including `undefined`, `null`, `0`, `""`, `false`) becomes `null`. -/
def jsOrNull (v : Option J) : J :=
  match v with
  | some x => if jsTruthy x then x else J.null
  | none => J.null

/-- The process environment: a partial map from variable names to strings
(`process.env`). -/
def Env : Type := String → Option String

/-- Truthiness of `process.env[name]` as tested by `!process.env[varName]`
(index.ts line 14): absent or empty-string variables are falsy. -/
def envTruthy (env : Env) (name : String) : Bool :=
  match env name with
  | none => false
  | some s => s != ""

/-- `requiredEnvVars` (index.ts line 13). -/
def requiredEnvVars : List String :=
  ["DESCOPE_PROJECT_ID", "DESCOPE_MANAGEMENT_KEY", "SERVER_URL"]

/-- `missingEnvVars` (index.ts line 14): the required variables whose
value is falsy in the environment. -/
def missingEnvVars (env : Env) : List String :=
  requiredEnvVars.filter (fun varName => !(envTruthy env varName))

/-- Outcome of the startup sequence (index.ts lines 16-20 and 346-376):
either the process exits with a code after printing the missing variables,
or it proceeds to connect the transport and bind the listener. -/
inductive StartupOutcome where
  | exitWith : Nat → List String → StartupOutcome
  | startServer : StartupOutcome
  deriving Repr, DecidableEq

/-- The startup check (index.ts lines 16-20): if any required variable is
missing the process reports them and exits with status 1 before any
listener is bound; otherwise it goes on to start the server. -/
def startup (env : Env) : StartupOutcome :=
  if (missingEnvVars env).length > 0 then
    StartupOutcome.exitWith 1 (missingEnvVars env)
  else
    StartupOutcome.startServer

/-- Outcome of one `fetch` call as observed by `makeNWSRequest`: either the
promise rejects (network failure), or a response arrives with an HTTP
status and a body whose JSON parse may itself fail (`response.json()`
throwing is `none`). -/
inductive FetchOutcome where
  | netError : FetchOutcome
  | response : Nat → Option J → FetchOutcome
  deriving Repr

/-- `response.ok`: HTTP status in the 200-299 range. -/
def responseOk (status : Nat) : Bool :=
  200 ≤ status && status < 300

/-- `makeNWSRequest` (index.ts lines 43-59): fetches a URL; a non-ok status
throws, a parse failure throws, and the surrounding catch converts every
throw into `null` (`none`). -/
def makeNWSRequest (outcome : FetchOutcome) : Option J :=
  match outcome with
  | FetchOutcome.netError => none
  | FetchOutcome.response status body =>
    if responseOk status then
      match body with
      | some v => some v
      | none => none
    else
      none

/-- Embed an optional string the way `res.json` serialises a possibly
`undefined` field value. -/
def optStr : Option String → J
  | none => J.null
  | some s => J.str s

/-- The `GET /` root handler's response body (index.ts lines 281-295):
endpoint listing plus presence flags (`!!`) for the two credentials and
the literal `SERVER_URL` value. -/
def rootBody (env : Env) : J :=
  J.obj
    [ ("message", J.str "Weather MCP Server is running"),
      ("endpoints", J.obj
        [ ("mcp", J.str "/mcp"),
          ("health", J.str "/health"),
          ("oauth_metadata", J.str "/.well-known/oauth-authorization-server") ]),
      ("environment", J.obj
        [ ("hasDescopeProjectId", J.bool (envTruthy env "DESCOPE_PROJECT_ID")),
          ("hasDescopeManagementKey", J.bool (envTruthy env "DESCOPE_MANAGEMENT_KEY")),
          ("serverUrl", optStr (env "SERVER_URL")) ]) ]

/-- The slice of an Express `Response` object the handlers touch: the
status code, whether headers have been flushed (`res.headersSent`), how
many terminal body writes have occurred, and the last written body. -/
structure Res where
  statusCode : Nat
  headersSent : Bool
  writeCount : Nat
  lastBody : Option J
  deriving Repr

/-- A fresh response object at the start of a request. -/
def Res.initial : Res :=
  { statusCode := 200, headersSent := false, writeCount := 0, lastBody := none }

/-- `res.status(c)`: sets the status code, sends nothing. -/
def Res.status (r : Res) (c : Nat) : Res :=
  { r with statusCode := c }

/-- `res.json(b)`: serialises a body, which flushes headers and counts as
one terminal write. -/
def Res.json (r : Res) (b : J) : Res :=
  { r with headersSent := true, writeCount := r.writeCount + 1, lastBody := some b }

/-- The JSON-RPC error envelope built in the catch block of `POST /mcp`
(index.ts lines 307-314), with `id: req.body?.id || null`. -/
def mcpErrorEnvelope (body : J) : J :=
  J.obj
    [ ("jsonrpc", J.str "2.0"),
      ("error", J.obj
        [ ("code", J.num (-32603)),
          ("message", J.str "Internal server error") ]),
      ("id", jsOrNull (getField body "id")) ]

/-- How `await transport.handleRequest(req, res, req.body)` ends, together
with the response state it leaves behind: the promise either resolves
(the transport produced the response) or rejects, possibly after partial
writes already flushed headers. -/
inductive TransportStep where
  | resolved : Res → TransportStep
  | rejected : Res → TransportStep
  deriving Repr

/-- The `POST /mcp` handler (index.ts lines 298-317): forwards to the
transport; on a rejection, emits a 500 JSON-RPC error envelope only when
`res.headersSent` is still false. -/
def mcpPost (body : J) (t : TransportStep) : Res :=
  match t with
  | TransportStep.resolved r => r
  | TransportStep.rejected r =>
    if r.headersSent then r
    else (r.status 500).json (mcpErrorEnvelope body)

/-- An HTTP-level response as observed by a client: status, headers, body. -/
structure HttpResponse where
  status : Nat
  headers : List (String × String)
  body : J
  deriving Repr, BEq

/-- An inbound HTTP request as seen by the Express pipeline: method, path,
whether an `Authorization` header is present, whether the bearer token it
carries verifies upstream, and the parsed JSON body. -/
inductive Method where
  | get | post | options
  deriving Repr, DecidableEq

structure Req where
  method : Method
  path : String
  hasAuthHeader : Bool
  tokenValid : Bool
  body : J
  deriving Repr

/-- Observable pipeline events, recorded in the order the layers run. -/
inductive Event where
  | authRouterHandled : String → Event
  | validatorStarted : Event
  | validatorRejected : Event
  | validatorPassed : Event
  | handlerRan : String → Event
  deriving Repr, DecidableEq

/-- Static configuration shared by all requests, read-only after startup:
the configured server URL, the environment, the transport's behaviour for
a given body, and the clock at request time. -/
structure Config where
  serverUrl : String
  env : Env
  transportOutcome : J → TransportStep
  now : Nat

/-- The CORS headers on the discovery response.  Modelled from the spec:
cross-origin discovery is permitted for any origin, methods GET/OPTIONS,
headers content-type/authorization (spec section 4.1); the same three
header values appear verbatim in the debug middleware at index.ts lines
273-275. -/
def metadataCorsHeaders : List (String × String) :=
  [ ("Access-Control-Allow-Origin", "*"),
    ("Access-Control-Allow-Methods", "GET, OPTIONS"),
    ("Access-Control-Allow-Headers", "Content-Type, Authorization") ]

/-- Modelled from the spec: the `AuthorizationServerMetadata` document
(RFC 8414) served by `descopeMcpAuthRouter` from `@descope/mcp-express`
(not under `src/`): issuer and endpoint URIs derived from the configured
server URL, plus supported response types, grant types and PKCE methods
(spec sections 3 and 6). -/
def metadataDoc (serverUrl : String) : J :=
  J.obj
    [ ("issuer", J.str serverUrl),
      ("authorization_endpoint", J.str (serverUrl ++ "/authorize")),
      ("token_endpoint", J.str (serverUrl ++ "/token")),
      ("registration_endpoint", J.str (serverUrl ++ "/register")),
      ("revocation_endpoint", J.str (serverUrl ++ "/revoke")),
      ("response_types_supported", J.arr [J.str "code"]),
      ("grant_types_supported",
        J.arr [J.str "authorization_code", J.str "refresh_token"]),
      ("code_challenge_methods_supported", J.arr [J.str "S256"]) ]

/-- Modelled from the spec: the registration response of the Dynamic
Client Registrar — a payload carrying `redirect_uris` is forwarded
upstream and answered 201 with issued credentials; a payload missing
`redirect_uris` is rejected 400 with `invalid_client_metadata` (spec
sections 4.2 and 6). -/
def registrationResponse (body : J) : HttpResponse :=
  match getField body "redirect_uris" with
  | some _ =>
    { status := 201, headers := [],
      body := J.obj [("client_id", J.str "generated-client-id")] }
  | none =>
    { status := 400, headers := [],
      body := J.obj [("error", J.str "invalid_client_metadata")] }

/-- Modelled from the spec: `descopeMcpAuthRouter()` (index.ts line 261,
package `@descope/mcp-express`, not under `src/`) — an Express router
handling the OAuth endpoints (discovery, registration, revocation) and
passing every other request through; mounted before the bearer
validator, so these endpoints are served without any token check. -/
def authRouter (serverUrl : String) (req : Req) : Option HttpResponse :=
  if req.method = Method.get ∧
      req.path = "/.well-known/oauth-authorization-server" then
    some { status := 200, headers := metadataCorsHeaders,
           body := metadataDoc serverUrl }
  else if req.method = Method.post ∧ req.path = "/register" then
    some (registrationResponse req.body)
  else if req.method = Method.post ∧ req.path = "/revoke" then
    some { status := 200, headers := [], body := J.obj [] }
  else
    none

/-- Modelled from the spec: `descopeMcpBearerAuth()` (index.ts line 263,
package `@descope/mcp-express`, not under `src/`) — the Bearer Token
Validator of spec section 4.3: a missing `Authorization` header yields
401 with `WWW-Authenticate: Bearer` and an `invalid_request` body; a
token that fails upstream verification yields 401 `invalid_token`; a
valid token attaches the principal and passes control on (`none`). -/
def bearerAuth (req : Req) : Option HttpResponse :=
  if !req.hasAuthHeader then
    some { status := 401, headers := [("WWW-Authenticate", "Bearer")],
           body := J.obj [("error", J.str "invalid_request")] }
  else if !req.tokenValid then
    some { status := 401, headers := [("WWW-Authenticate", "Bearer")],
           body := J.obj [("error", J.str "invalid_token")] }
  else
    none

/-- Decimal digit character of `n % 10`. -/
def digitChar (n : Nat) : Char := Char.ofNat (48 + n % 10)

/-- Four decimal digits of a year. -/
def pad4 (n : Nat) : List Char :=
  [digitChar (n / 1000), digitChar (n / 100), digitChar (n / 10), digitChar n]

/-- Three decimal digits of a millisecond field. -/
def pad3 (n : Nat) : List Char :=
  [digitChar (n / 100), digitChar (n / 10), digitChar n]

/-- Two decimal digits of a calendar or clock field. -/
def pad2 (n : Nat) : List Char :=
  [digitChar (n / 10), digitChar n]

def msPerDay : Nat := 86400000

/-- Gregorian civil date (year, month, day) from days since 1970-01-01,
for non-negative day counts. -/
def civilFromDays (z0 : Nat) : Nat × Nat × Nat :=
  let z := z0 + 719468
  let era := z / 146097
  let doe := z % 146097
  let yoe := (doe - doe / 1460 + doe / 36524 - doe / 146096) / 365
  let y := yoe + era * 400
  let doy := doe - (365 * yoe + yoe / 4 - yoe / 100)
  let mp := (5 * doy + 2) / 153
  let d := doy - (153 * mp + 2) / 5 + 1
  let m := if mp < 10 then mp + 3 else mp - 9
  (if m ≤ 2 then y + 1 else y, m, d)

/-- Modelled from the spec: the JS runtime's `Date.prototype.toISOString`
(not under `src/`), producing the `YYYY-MM-DDTHH:MM:SS.mmmZ` timestamp of
a non-negative epoch-millisecond clock value, as used by the health
endpoint (index.ts line 267). -/
def toISOString (t : Nat) : String :=
  let c := civilFromDays (t / msPerDay)
  let msOfDay := t % msPerDay
  let hh := msOfDay / 3600000
  let mi := msOfDay % 3600000 / 60000
  let ss := msOfDay % 60000 / 1000
  let ms := msOfDay % 1000
  String.mk
    (pad4 c.1 ++ '-' :: pad2 c.2.1 ++ '-' :: pad2 c.2.2 ++
     'T' :: pad2 hh ++ ':' :: pad2 mi ++ ':' :: pad2 ss ++
     '.' :: pad3 ms ++ ['Z'])

def isAsciiDigit (c : Char) : Bool :=
  48 ≤ c.toNat && c.toNat ≤ 57

/-- Checks the `YYYY-MM-DDTHH:MM:SS.mmmZ` ISO 8601 shape: 24 characters,
digits and fixed separators at fixed positions, ending in `Z`. -/
def isIso8601Z (s : String) : Bool :=
  match s.data with
  | [y1, y2, y3, y4, s1, m1, m2, s2, d1, d2, s3, h1, h2, s4, i1, i2,
     s5, e1, e2, s6, f1, f2, f3, s7] =>
    isAsciiDigit y1 && isAsciiDigit y2 && isAsciiDigit y3 &&
    isAsciiDigit y4 && (s1 == '-') && isAsciiDigit m1 && isAsciiDigit m2 &&
    (s2 == '-') && isAsciiDigit d1 && isAsciiDigit d2 && (s3 == 'T') &&
    isAsciiDigit h1 && isAsciiDigit h2 && (s4 == ':') && isAsciiDigit i1 &&
    isAsciiDigit i2 && (s5 == ':') && isAsciiDigit e1 && isAsciiDigit e2 &&
    (s6 == '.') && isAsciiDigit f1 && isAsciiDigit f2 && isAsciiDigit f3 &&
    (s7 == 'Z')
  | _ => false

/-- The `GET /health` response body (index.ts line 267). -/
def healthBody (now : Nat) : J :=
  J.obj [("status", J.str "ok"), ("timestamp", J.str (toISOString now))]

/-- The `GET /health` response (index.ts lines 266-268). -/
def healthResponse (now : Nat) : HttpResponse :=
  { status := 200, headers := [], body := healthBody now }

/-- The `GET /mcp` capability-description response (index.ts lines
320-327). -/
def mcpGetResponse : HttpResponse :=
  { status := 200, headers := [],
    body := J.obj
      [ ("message",
          J.str "MCP endpoint is available. Use POST with JSON-RPC 2.0 format."),
        ("server", J.str "weather-mcp-server"),
        ("version", J.str "1.0.1") ] }

/-- Express's fallback when no route matches. -/
def notFoundResponse : HttpResponse :=
  { status := 404, headers := [], body := J.null }

/-- View of the response object after the `POST /mcp` handler ran. -/
def resToHttp (r : Res) : HttpResponse :=
  { status := r.statusCode, headers := [],
    body := match r.lastBody with | some b => b | none => J.null }

/-- The route layers registered after the bearer validator, in source
order (index.ts lines 266, 271, 281, 298, 320): health, the well-known
debug middleware (which only calls `next()`), root, `POST /mcp`,
`GET /mcp`.  Returns the trace of executed handlers and the response. -/
def routes (cfg : Config) (req : Req) : List Event × HttpResponse :=
  if req.method = Method.get ∧ req.path = "/health" then
    ([Event.handlerRan "health"], healthResponse cfg.now)
  else if req.method = Method.get ∧ req.path = "/" then
    ([Event.handlerRan "root"],
     { status := 200, headers := [], body := rootBody cfg.env })
  else if req.method = Method.post ∧ req.path = "/mcp" then
    ([Event.handlerRan "mcpPost"],
     resToHttp (mcpPost req.body (cfg.transportOutcome req.body)))
  else if req.method = Method.get ∧ req.path = "/mcp" then
    ([Event.handlerRan "mcpGet"], mcpGetResponse)
  else
    ([], notFoundResponse)

/-- The whole Express pipeline in mount order (index.ts lines 245-327):
the body-parsing/static/CORS layers (which pass non-OPTIONS requests
through unchanged), then the Descope auth router (line 262), then the
bearer validator mounted on `/mcp` (line 263), then the route handlers.
Returns the event trace and the response. -/
def appDispatch (cfg : Config) (req : Req) : List Event × HttpResponse :=
  match authRouter cfg.serverUrl req with
  | some resp => ([Event.authRouterHandled req.path], resp)
  | none =>
    if req.path = "/mcp" then
      match bearerAuth req with
      | some resp => ([Event.validatorStarted, Event.validatorRejected], resp)
      | none =>
        let next := routes cfg req
        (Event.validatorStarted :: Event.validatorPassed :: next.1, next.2)
    else
      routes cfg req

/-- The options object passed to `new StreamableHTTPServerTransport`
(index.ts lines 255-257). -/
structure TransportOptions where
  sessionIdGenerator : Option (Unit → String)

/-- The transport configuration of index.ts line 256:
`sessionIdGenerator: undefined`, the stateless setting. -/
def transportOptions : TransportOptions :=
  { sessionIdGenerator := none }

/-- Modelled from the spec: the streamable transport (package
`@modelcontextprotocol/sdk`, not under `src/`) derives a session
identifier for a request only by invoking the configured generator; in
the stateless configuration no session identifier is generated or
persisted (spec section 3, TransportSession). -/
def sessionIdAssigned (opts : TransportOptions) (_req : Req) : Option String :=
  opts.sessionIdGenerator.map (fun g => g ())

/-- The per-request transport state machine of spec section 4.5:
Idle → Dispatching → Responded, terminal at Responded. -/
inductive Phase where
  | idle : Phase
  | dispatching : Phase
  | responded : List Event → HttpResponse → Phase
  deriving Repr

/-- One step of a single request's state machine; reads only the
immutable configuration and that request's own data. -/
def stepPhase (cfg : Config) (req : Req) : Phase → Phase
  | Phase.idle => Phase.dispatching
  | Phase.dispatching =>
    Phase.responded (appDispatch cfg req).1 (appDispatch cfg req).2
  | Phase.responded tr resp => Phase.responded tr resp

/-- `n` steps of one request's state machine. -/
def stepN (cfg : Config) (req : Req) : Nat → Phase → Phase
  | 0, p => p
  | n + 1, p => stepN cfg req n (stepPhase cfg req p)

/-- Joint state of two in-flight requests. -/
structure SystemState where
  r1 : Phase
  r2 : Phase
  deriving Repr

/-- An interleaved execution of two requests: the schedule picks, at each
step, which request's machine advances.  The configuration is shared and
read-only; each step touches only its own request's phase. -/
def runSystem (cfg : Config) (req1 req2 : Req) :
    List Bool → SystemState → SystemState
  | [], s => s
  | b :: rest, s =>
    if b then
      runSystem cfg req1 req2 rest { s with r1 := stepPhase cfg req1 s.r1 }
    else
      runSystem cfg req1 req2 rest { s with r2 := stepPhase cfg req2 s.r2 }

/-- A concrete environment with all three variables set (first credential
pair). -/
def envA : Env := fun name =>
  if name = "DESCOPE_PROJECT_ID" then some "P1-credential"
  else if name = "DESCOPE_MANAGEMENT_KEY" then some "K1-credential"
  else if name = "SERVER_URL" then some "https://mcp.example" else none

/-- A concrete environment differing from `envA` only in the two
credential values. -/
def envB : Env := fun name =>
  if name = "DESCOPE_PROJECT_ID" then some "P2-credential"
  else if name = "DESCOPE_MANAGEMENT_KEY" then some "K2-credential"
  else if name = "SERVER_URL" then some "https://mcp.example" else none

/-- A concrete configuration for witnesses. -/
def cfgA : Config :=
  { serverUrl := "https://mcp.example", env := envA,
    transportOutcome := fun b => TransportStep.resolved (Res.initial.json b),
    now := 1760140800000 }

/-- A second concrete configuration: same server URL as `cfgA`, same
transport behaviour and clock, but the other credential pair. -/
def cfgB : Config :=
  { serverUrl := "https://mcp.example", env := envB,
    transportOutcome := fun b => TransportStep.resolved (Res.initial.json b),
    now := 1760140800000 }

/-- C1: when the transport rejects, the `POST /mcp` handler checks
`headersSent` before emitting the 500 body: a request that errored after
headers were sent gets no further write at all, a request that errored
before headers were sent gets exactly one 500 error response, and in
either case at most one terminal write happens per request. -/
theorem mcpPost_at_most_one_write (body : J) (r : Res)
    (hconsistent : r.headersSent = false → r.writeCount = 0) :
    (r.headersSent = true → mcpPost body (TransportStep.rejected r) = r) ∧
    (r.headersSent = false →
      (mcpPost body (TransportStep.rejected r)).writeCount = 1 ∧
      (mcpPost body (TransportStep.rejected r)).statusCode = 500 ∧
      (mcpPost body (TransportStep.rejected r)).lastBody =
        some (mcpErrorEnvelope body)) ∧
    (r.writeCount ≤ 1 →
      (mcpPost body (TransportStep.rejected r)).writeCount ≤ 1) := by
  refine ⟨?_, ?_, ?_⟩
  · intro h
    simp [mcpPost, h]
  · intro h
    simp [mcpPost, h, Res.status, Res.json, hconsistent h]
  · intro hle
    cases hh : r.headersSent with
    | true => simpa [mcpPost, hh] using hle
    | false => simp [mcpPost, hh, Res.status, Res.json, hconsistent hh]

/-- C1 witness: a rejection on a fresh response yields exactly one
500 write. -/
theorem mcpPost_at_most_one_write_witness :
    (mcpPost (J.obj [("id", J.num 1)])
        (TransportStep.rejected Res.initial)).writeCount = 1 ∧
    (mcpPost (J.obj [("id", J.num 1)])
        (TransportStep.rejected Res.initial)).statusCode = 500 := by
  have h := (mcpPost_at_most_one_write (J.obj [("id", J.num 1)])
    Res.initial (fun _ => rfl)).2.1 rfl
  exact ⟨h.1, h.2.1⟩

/-- C3 counterexample: the inbound body `{"id": 0}` has an `id` field
present and equal to `0`, yet the error envelope carries `id: null`,
because line 313 uses `req.body?.id || null` and `0` is falsy. -/
theorem mcpErrorEnvelope_id_zero_counterexample :
    getField (J.obj [("id", J.num 0)]) "id" = some (J.num 0) ∧
    getField (mcpErrorEnvelope (J.obj [("id", J.num 0)])) "id" = some J.null ∧
    (J.null : J) ≠ J.num 0 := by
  refine ⟨rfl, rfl, ?_⟩
  intro h
  exact J.noConfusion h

/-- C3 (amended): the error envelope's `id` equals the inbound body's `id`
whenever that id is present and truthy; when the id is present but falsy
(`0`, `""`, `false`, `null`), or absent, the envelope carries `null`. -/
theorem mcpErrorEnvelope_id (body : J) :
    (∀ v, getField body "id" = some v → jsTruthy v = true →
      getField (mcpErrorEnvelope body) "id" = some v) ∧
    (∀ v, getField body "id" = some v → jsTruthy v = false →
      getField (mcpErrorEnvelope body) "id" = some J.null) ∧
    (getField body "id" = none →
      getField (mcpErrorEnvelope body) "id" = some J.null) := by
  have henv : getField (mcpErrorEnvelope body) "id" =
      some (jsOrNull (getField body "id")) := rfl
  refine ⟨?_, ?_, ?_⟩
  · intro v hv htruthy
    rw [henv, hv]
    simp [jsOrNull, htruthy]
  · intro v hv hfalsy
    rw [henv, hv]
    simp [jsOrNull, hfalsy]
  · intro hnone
    rw [henv, hnone]
    simp [jsOrNull]

/-- C3 witness: a truthy id (`1`) is echoed back in the envelope. -/
theorem mcpErrorEnvelope_id_witness :
    getField (mcpErrorEnvelope (J.obj [("id", J.num 1)])) "id" =
      some (J.num 1) :=
  (mcpErrorEnvelope_id (J.obj [("id", J.num 1)])).1 (J.num 1) rfl rfl

/-- C4: startup fails fast — whenever some required environment variable is
missing, the process exits with status 1 carrying exactly the list of
missing variable names (a variable is listed iff it is required and unset
or empty), before any listener is bound; when none is missing it proceeds
to start the server. -/
theorem startup_fail_fast (env : Env) :
    (missingEnvVars env ≠ [] →
      startup env = StartupOutcome.exitWith 1 (missingEnvVars env)) ∧
    (∀ v, v ∈ missingEnvVars env ↔
      v ∈ requiredEnvVars ∧ envTruthy env v = false) ∧
    (missingEnvVars env = [] → startup env = StartupOutcome.startServer) := by
  refine ⟨?_, ?_, ?_⟩
  · intro h
    simp [startup, List.length_pos.mpr h]
  · intro v
    simp [missingEnvVars, List.mem_filter]
  · intro h
    simp [startup, h]

/-- C4 witness: with an empty environment all three variables are reported
missing and the process exits with status 1. -/
theorem startup_fail_fast_witness :
    startup (fun _ => none) =
      StartupOutcome.exitWith 1
        ["DESCOPE_PROJECT_ID", "DESCOPE_MANAGEMENT_KEY", "SERVER_URL"] := by
  have h := (startup_fail_fast (fun _ => none)).1 (by decide)
  simpa using h

/-- C9: `makeNWSRequest` is total over failure — it returns the parsed body
exactly when the fetch yields an ok (2xx) status, and returns `null`
(never an exception) on a non-ok status, a network rejection, or a body
parse failure. -/
theorem makeNWSRequest_total (outcome : FetchOutcome) :
    (∀ status body, outcome = FetchOutcome.response status body →
      responseOk status = true → makeNWSRequest outcome = body) ∧
    (∀ status body, outcome = FetchOutcome.response status body →
      responseOk status = false → makeNWSRequest outcome = none) ∧
    (outcome = FetchOutcome.netError → makeNWSRequest outcome = none) := by
  refine ⟨?_, ?_, ?_⟩
  · intro status body hout hok
    subst hout
    cases body <;> simp [makeNWSRequest, hok]
  · intro status body hout hbad
    subst hout
    simp [makeNWSRequest, hbad]
  · intro hout
    subst hout
    rfl

/-- C9 witness: an ok response parses through, a 500 response and a network
error both yield `null`. -/
theorem makeNWSRequest_total_witness :
    makeNWSRequest (FetchOutcome.response 200 (some (J.str "ok-body"))) =
      some (J.str "ok-body") ∧
    makeNWSRequest (FetchOutcome.response 500 (some (J.str "err-body"))) =
      none ∧
    makeNWSRequest FetchOutcome.netError = none := by
  refine ⟨?_, ?_, ?_⟩
  · exact (makeNWSRequest_total
      (FetchOutcome.response 200 (some (J.str "ok-body")))).1
      200 (some (J.str "ok-body")) rfl (by decide)
  · exact (makeNWSRequest_total
      (FetchOutcome.response 500 (some (J.str "err-body")))).2.1
      500 (some (J.str "err-body")) rfl (by decide)
  · exact (makeNWSRequest_total FetchOutcome.netError).2.2 rfl

/-- Every character produced by `digitChar` is a decimal digit. -/
theorem isAsciiDigit_digitChar (n : Nat) :
    isAsciiDigit (digitChar n) = true := by
  have h : n % 10 < 10 := Nat.mod_lt _ (by norm_num)
  unfold digitChar isAsciiDigit
  set k := n % 10 with hk
  interval_cases k <;> decide

/-- `toISOString` always yields the `YYYY-MM-DDTHH:MM:SS.mmmZ` shape. -/
theorem isIso8601Z_toISOString (t : Nat) :
    isIso8601Z (toISOString t) = true := by
  simp [toISOString, isIso8601Z, pad4, pad3, pad2, isAsciiDigit_digitChar]

/-- C2: for every `POST /mcp` request the bearer validator runs first —
a request without an `Authorization` header is rejected 401 with a
`WWW-Authenticate: Bearer` challenge and the MCP handler never runs; a
request with an invalid token is likewise rejected before the handler;
only after the validator passes does the `POST /mcp` handler execute —
while the discovery, registration and revocation endpoints mounted by
the auth router are served with no validator event in their trace. -/
theorem validator_guards_mcp (cfg : Config) (req : Req) :
    (req.method = Method.post → req.path = "/mcp" →
      (req.hasAuthHeader = false →
        (appDispatch cfg req).1 =
          [Event.validatorStarted, Event.validatorRejected] ∧
        (appDispatch cfg req).2.status = 401 ∧
        (appDispatch cfg req).2.headers = [("WWW-Authenticate", "Bearer")]) ∧
      (req.hasAuthHeader = true → req.tokenValid = false →
        (appDispatch cfg req).1 =
          [Event.validatorStarted, Event.validatorRejected] ∧
        (appDispatch cfg req).2.status = 401) ∧
      (req.hasAuthHeader = true → req.tokenValid = true →
        (appDispatch cfg req).1 =
          [Event.validatorStarted, Event.validatorPassed,
           Event.handlerRan "mcpPost"])) ∧
    ((req.method = Method.get ∧
        req.path = "/.well-known/oauth-authorization-server") ∨
      (req.method = Method.post ∧ req.path = "/register") ∨
      (req.method = Method.post ∧ req.path = "/revoke") →
      (appDispatch cfg req).1 = [Event.authRouterHandled req.path] ∧
      Event.validatorStarted ∉ (appDispatch cfg req).1 ∧
      Event.validatorRejected ∉ (appDispatch cfg req).1) := by
  constructor
  · intro hm hp
    refine ⟨?_, ?_, ?_⟩
    · intro hna
      simp [appDispatch, authRouter, bearerAuth, hm, hp, hna]
    · intro hha htv
      simp [appDispatch, authRouter, bearerAuth, hm, hp, hha, htv]
    · intro hha htv
      simp [appDispatch, authRouter, bearerAuth, routes, hm, hp, hha, htv]
  · intro h
    rcases h with ⟨hm, hp⟩ | ⟨hm, hp⟩ | ⟨hm, hp⟩ <;>
      simp [appDispatch, authRouter, hm, hp]

/-- C2 witness: a tokenless `POST /mcp` is rejected 401 by the validator,
and `GET` on the discovery path is served by the auth router with no
validator event. -/
theorem validator_guards_mcp_witness :
    (appDispatch cfgA
        { method := Method.post, path := "/mcp", hasAuthHeader := false,
          tokenValid := false, body := J.obj [] }).1 =
      [Event.validatorStarted, Event.validatorRejected] ∧
    Event.validatorStarted ∉
      (appDispatch cfgA
        { method := Method.get,
          path := "/.well-known/oauth-authorization-server",
          hasAuthHeader := false, tokenValid := false, body := J.null }).1 := by
  constructor
  · exact (((validator_guards_mcp cfgA
      { method := Method.post, path := "/mcp", hasAuthHeader := false,
        tokenValid := false, body := J.obj [] }).1 rfl rfl).1 rfl).1
  · exact ((validator_guards_mcp cfgA
      { method := Method.get,
        path := "/.well-known/oauth-authorization-server",
        hasAuthHeader := false, tokenValid := false, body := J.null }).2
      (Or.inl ⟨rfl, rfl⟩)).2.1

/-- C5: the transport is configured stateless — `sessionIdGenerator` is
`undefined`, so no session identifier is ever generated or assigned for
any request. -/
theorem transport_stateless :
    transportOptions.sessionIdGenerator = none ∧
    ∀ req : Req, sessionIdAssigned transportOptions req = none :=
  ⟨rfl, fun _ => rfl⟩

/-- C6: every `GET` on the discovery path is answered by the auth router
with the authorization-server metadata document and the three CORS
headers permitting cross-origin discovery, with no bearer-token
validation in the trace. -/
theorem metadata_discovery (cfg : Config) (req : Req)
    (hm : req.method = Method.get)
    (hp : req.path = "/.well-known/oauth-authorization-server") :
    (appDispatch cfg req).2 =
      { status := 200, headers := metadataCorsHeaders,
        body := metadataDoc cfg.serverUrl } ∧
    ("Access-Control-Allow-Origin", "*") ∈ (appDispatch cfg req).2.headers ∧
    ("Access-Control-Allow-Methods", "GET, OPTIONS") ∈
      (appDispatch cfg req).2.headers ∧
    ("Access-Control-Allow-Headers", "Content-Type, Authorization") ∈
      (appDispatch cfg req).2.headers ∧
    Event.validatorStarted ∉ (appDispatch cfg req).1 := by
  refine ⟨?_, ?_, ?_, ?_, ?_⟩ <;>
    simp [appDispatch, authRouter, metadataCorsHeaders, hm, hp]

/-- C6 witness: the discovery response for a tokenless request. -/
theorem metadata_discovery_witness :
    (appDispatch cfgA
        { method := Method.get,
          path := "/.well-known/oauth-authorization-server",
          hasAuthHeader := false, tokenValid := false, body := J.null }).2 =
      { status := 200, headers := metadataCorsHeaders,
        body := metadataDoc cfgA.serverUrl } :=
  (metadata_discovery cfgA
    { method := Method.get,
      path := "/.well-known/oauth-authorization-server",
      hasAuthHeader := false, tokenValid := false, body := J.null }
    rfl rfl).1

/-- After each schedule step, each request's phase is its own machine
iterated as many times as that request was scheduled: interleaving never
lets one request's steps touch the other's state. -/
theorem runSystem_eq_stepN (cfg : Config) (req1 req2 : Req)
    (sched : List Bool) (s : SystemState) :
    runSystem cfg req1 req2 sched s =
      { r1 := stepN cfg req1 (sched.count true) s.r1,
        r2 := stepN cfg req2 (sched.count false) s.r2 } := by
  induction sched generalizing s with
  | nil => simp [runSystem, List.count_nil, stepN]
  | cons b rest ih =>
    cases b with
    | true =>
      rw [show runSystem cfg req1 req2 (true :: rest) s =
        runSystem cfg req1 req2 rest
          { s with r1 := stepPhase cfg req1 s.r1 } from rfl, ih]
      simp [List.count_cons, stepN]
    | false =>
      rw [show runSystem cfg req1 req2 (false :: rest) s =
        runSystem cfg req1 req2 rest
          { s with r2 := stepPhase cfg req2 s.r2 } from rfl, ih]
      simp [List.count_cons, stepN]

/-- A responded request stays responded under further steps. -/
theorem stepN_responded (cfg : Config) (req : Req) (tr : List Event)
    (resp : HttpResponse) (n : Nat) :
    stepN cfg req n (Phase.responded tr resp) = Phase.responded tr resp := by
  induction n with
  | zero => rfl
  | succ k ih => exact ih

/-- Two or more scheduled steps drive one request's machine from Idle to
its Responded state, determined by that request and the configuration
alone. -/
theorem stepN_complete (cfg : Config) (req : Req) (n : Nat) (h : 2 ≤ n) :
    stepN cfg req n Phase.idle =
      Phase.responded (appDispatch cfg req).1 (appDispatch cfg req).2 := by
  obtain ⟨k, rfl⟩ : ∃ k, n = k + 2 := ⟨n - 2, by omega⟩
  show stepN cfg req k
    (Phase.responded (appDispatch cfg req).1 (appDispatch cfg req).2) = _
  exact stepN_responded cfg req _ _ k

/-- C7: concurrent `POST /mcp` requests are independent instances of the
Idle → Dispatching → Responded machine — under any interleaving that
schedules each request at least twice, each request ends in the
Responded state computed from its own data and the shared read-only
configuration only, independent of the other request and of the
schedule. -/
theorem concurrent_requests_independent (cfg : Config) (req1 req2 : Req)
    (sched : List Bool) (h1 : 2 ≤ sched.count true)
    (h2 : 2 ≤ sched.count false) :
    runSystem cfg req1 req2 sched { r1 := Phase.idle, r2 := Phase.idle } =
      { r1 := Phase.responded (appDispatch cfg req1).1 (appDispatch cfg req1).2,
        r2 := Phase.responded (appDispatch cfg req2).1
          (appDispatch cfg req2).2 } := by
  rw [runSystem_eq_stepN]
  rw [show (SystemState.mk Phase.idle Phase.idle).r1 = Phase.idle from rfl,
      show (SystemState.mk Phase.idle Phase.idle).r2 = Phase.idle from rfl,
      stepN_complete cfg req1 _ h1, stepN_complete cfg req2 _ h2]

/-- C7 witness: a concrete interleaving of two concurrent `POST /mcp`
requests. -/
theorem concurrent_requests_independent_witness :
    runSystem cfgA
        { method := Method.post, path := "/mcp", hasAuthHeader := true,
          tokenValid := true, body := J.obj [("id", J.num 7)] }
        { method := Method.post, path := "/mcp", hasAuthHeader := false,
          tokenValid := false, body := J.obj [] }
        [true, false, true, false]
        { r1 := Phase.idle, r2 := Phase.idle } =
      { r1 := Phase.responded
          (appDispatch cfgA
            { method := Method.post, path := "/mcp", hasAuthHeader := true,
              tokenValid := true, body := J.obj [("id", J.num 7)] }).1
          (appDispatch cfgA
            { method := Method.post, path := "/mcp", hasAuthHeader := true,
              tokenValid := true, body := J.obj [("id", J.num 7)] }).2,
        r2 := Phase.responded
          (appDispatch cfgA
            { method := Method.post, path := "/mcp", hasAuthHeader := false,
              tokenValid := false, body := J.obj [] }).1
          (appDispatch cfgA
            { method := Method.post, path := "/mcp", hasAuthHeader := false,
              tokenValid := false, body := J.obj [] }).2 } :=
  concurrent_requests_independent cfgA _ _ [true, false, true, false]
    (by decide) (by decide)

/-- C8: every `GET /health` request is answered 200 with a body whose
`status` field is `"ok"` and whose `timestamp` field is the ISO 8601
rendering of the request-time clock; the handler produces exactly this
response and nothing else. -/
theorem health_endpoint (cfg : Config) (req : Req)
    (hm : req.method = Method.get) (hp : req.path = "/health") :
    (appDispatch cfg req).2 = healthResponse cfg.now ∧
    (appDispatch cfg req).1 = [Event.handlerRan "health"] ∧
    (healthResponse cfg.now).status = 200 ∧
    getField (healthBody cfg.now) "status" = some (J.str "ok") ∧
    getField (healthBody cfg.now) "timestamp" =
      some (J.str (toISOString cfg.now)) ∧
    isIso8601Z (toISOString cfg.now) = true := by
  refine ⟨?_, ?_, rfl, rfl, rfl, isIso8601Z_toISOString _⟩ <;>
    simp [appDispatch, authRouter, routes, hm, hp]

/-- C8 witness: the health response at a concrete clock value. -/
theorem health_endpoint_witness :
    (appDispatch cfgA
        { method := Method.get, path := "/health", hasAuthHeader := false,
          tokenValid := false, body := J.null }).2 =
      healthResponse cfgA.now ∧
    isIso8601Z (toISOString cfgA.now) = true := by
  have h := health_endpoint cfgA
    { method := Method.get, path := "/health", hasAuthHeader := false,
      tokenValid := false, body := J.null } rfl rfl
  exact ⟨h.1, h.2.2.2.2.2⟩

/-- C10: the `GET /` response body reveals only boolean presence flags of
the two Descope credentials, never their values — two configurations
with both credentials set that agree on `SERVER_URL` produce identical
response bodies whatever the credential values are. -/
theorem root_no_credential_leak (cfg1 cfg2 : Config) (req : Req)
    (hm : req.method = Method.get) (hp : req.path = "/")
    (hp1 : envTruthy cfg1.env "DESCOPE_PROJECT_ID" = true)
    (hp2 : envTruthy cfg2.env "DESCOPE_PROJECT_ID" = true)
    (hk1 : envTruthy cfg1.env "DESCOPE_MANAGEMENT_KEY" = true)
    (hk2 : envTruthy cfg2.env "DESCOPE_MANAGEMENT_KEY" = true)
    (hs : cfg1.env "SERVER_URL" = cfg2.env "SERVER_URL") :
    (appDispatch cfg1 req).2.body = (appDispatch cfg2 req).2.body ∧
    (appDispatch cfg1 req).2.body = rootBody cfg1.env := by
  have hb1 : (appDispatch cfg1 req).2.body = rootBody cfg1.env := by
    simp [appDispatch, authRouter, routes, hm, hp]
  have hb2 : (appDispatch cfg2 req).2.body = rootBody cfg2.env := by
    simp [appDispatch, authRouter, routes, hm, hp]
  refine ⟨?_, hb1⟩
  rw [hb1, hb2]
  simp [rootBody, hp1, hp2, hk1, hk2, hs]

/-- C10 witness: two environments differing only in the credential values
yield the same `GET /` body. -/
theorem root_no_credential_leak_witness :
    (appDispatch cfgA
        { method := Method.get, path := "/", hasAuthHeader := false,
          tokenValid := false, body := J.null }).2.body =
      (appDispatch cfgB
        { method := Method.get, path := "/", hasAuthHeader := false,
          tokenValid := false, body := J.null }).2.body :=
  (root_no_credential_leak cfgA cfgB
    { method := Method.get, path := "/", hasAuthHeader := false,
      tokenValid := false, body := J.null }
    rfl rfl (by decide) (by decide) (by decide) (by decide) (by decide)).1
